import Mathlib

/-!
Verification of the noise-function composition library (noise-rs variant).

Shallow embedding conventions:
* `f64` values are modelled as exact rationals (`ℚ`); the claims treated here
  involve only field operations, `min`/`max`, comparisons and clamping, all of
  which are exact on the rationals.
* `u32`/`u64` values are modelled as `Nat` (with explicit `% 2 ^ w` where the
  source can overflow).
* A Rust panic (failed `assert!`, `unwrap()` of `None`, indexing an empty
  slice) is modelled by returning `Option.none`.
* Each definition's doc comment names the source item it is translated from.
-/

namespace NoiseRs

/-- Model of the stream of `u32` values drawn from a
`rand_xorshift::XorShiftRng` initialised with `SeedableRng::seed_from_u64`
(the `rand` / `rand_xorshift` crates are external dependencies, not code of
this repository).  `seedStream seed i` is the `i`-th value drawn from the
generator seeded with `seed`.  The theorems below rely only on the stream
being a fixed deterministic function of the pair (seed, draw index) — which
is exactly what the real generator provides — never on its concrete values,
so the mixing formula here is a deterministic stand-in. -/
def seedStream (seed i : Nat) : Nat :=
  (seed * 2654435761 + (i + 1) * 2246822519 + 374761393) % 2 ^ 32

/-! ### Fractals (src/src/noise_fns/fractals.rs) -/

/-- Loop body of `HomogenousBlender::blend` (fractals.rs lines 77-85):
`result = layer_values[0]; amplitude = persistence;` then
`for value in layer_values { result += *value * amplitude; amplitude *= persistence }`.
Note the Rust `for` loop runs over the whole slice, index 0 included; the
recursion below therefore also consumes the whole list. -/
def homogenousBlendLoop (persistence : ℚ) : List ℚ → ℚ → ℚ → ℚ
  | [], result, _ => result
  | value :: rest, result, amplitude =>
      homogenousBlendLoop persistence rest (result + value * amplitude)
        (amplitude * persistence)

/-- `LayerBlender for HomogenousBlender`, fractals.rs lines 73-88.  The
`persistence` field of the struct is passed explicitly.  `layer_values[0]`
panics on an empty slice (`none`). -/
def HomogenousBlender.blend (persistence : ℚ) (layer_values : List ℚ) :
    Option ℚ :=
  match layer_values with
  | [] => none
  | v0 :: _ => some (homogenousBlendLoop persistence layer_values v0 persistence)

/-- `Fractal` (fractals.rs lines 220-230), at the level of seed state.  The
base functions (type parameter `BaseFunction: Seedable`) are each represented
by their `u32` seed — the only state `Seedable::with_seed` replaces; for the
default base `Perlin` the seed determines the whole generator.  The
`transform` and `blender` fields are omitted: they carry no seed state and
every seeding operation passes them through unchanged. -/
structure Fractal where
  layers : List Nat
  seed : Nat
deriving Repr, DecidableEq

/-- `Fractal::DEFAULT_SEED` (fractals.rs line 267). -/
def Fractal.DEFAULT_SEED : Nat := 0xD0786B3E

/-- `Fractal::new` (fractals.rs lines 271-288): a fresh `XorShiftRng` is
seeded from `DEFAULT_SEED` and layer `i` receives the `i`-th draw
(`F::default().with_seed(seed_gen.gen())` for each of `0..layers`). -/
def Fractal.new (layers : Nat) : Fractal :=
  { layers := (List.range layers).map (seedStream Fractal.DEFAULT_SEED)
    seed := Fractal.DEFAULT_SEED }

/-- `Seedable for Fractal`, method `with_seed` (fractals.rs lines 444-459): a
fresh `XorShiftRng` is seeded from the argument and layer `i` is reseeded
with the `i`-th draw.  The struct update in the source writes
`seed: this.seed` — the previously stored seed, not the argument — and the
model reproduces that faithfully. -/
def Fractal.with_seed (fr : Fractal) (seed : Nat) : Fractal :=
  { layers := (List.range fr.layers.length).map (seedStream seed)
    seed := fr.seed }

/-- `Seedable for Fractal`, method `seed` (fractals.rs lines 461-463). -/
def Fractal.seedOf (fr : Fractal) : Nat := fr.seed

/-- `Fractal::with_layers` (fractals.rs lines 318-348).  `assert!(layers > 0)`
panics for 0 (`none`); equal count returns the value unchanged; a larger
current count truncates via `split_off`; otherwise a fresh `XorShiftRng` is
seeded from `self.seed`, the first `current_num_layers` draws are discarded,
and each appended layer takes the next draw (so the layer at absolute index
`i` receives draw `i`).  `o.first().unwrap()` panics on an empty layer list
(`none`). -/
def Fractal.with_layers (fr : Fractal) (layers : Nat) : Option Fractal :=
  if layers = 0 then none
  else if fr.layers.length = layers then some fr
  else if layers < fr.layers.length then
    some { fr with layers := fr.layers.take layers }
  else if fr.layers.isEmpty then none
  else
    some { fr with
      layers := fr.layers ++
        (List.range' fr.layers.length (layers - fr.layers.length)).map
          (seedStream fr.seed) }

/-! ### Turbulence (src/src/noise_fns/transformers/turbulence.rs) -/

/-- `Turbulence`, at the level of seed state.  Each distorter is a
`Transformed<FractalPerlin, UniformScale<f64>>`; `UniformScale` holds no seed
state and `Seedable for Transformed` (transforms.rs lines 49-63) delegates
`with_seed` to its `source`, so each distorter's seed state is exactly the
inner `FractalPerlin`.  The `source`, `frequency`, `power` and `roughness`
fields play no part in seeding and are omitted here (evaluation is modelled
separately by `Turbulence2`). -/
structure TurbulenceSeeds where
  seed : Nat
  distorters : Fin 4 → Fractal

/-- `Turbulence::new` (turbulence.rs lines 42-72): seed is `DEFAULT_SEED = 0`;
a fresh `XorShiftRng` is seeded from it and the four distorters are built as
`FractalPerlin::default().with_seed(seed_gen.gen())` in order, so distorter
`i` receives draw `i`.  `FractalPerlin::default()` is `Fractal::new` with
`DEFAULT_LAYERS = 6` layers. -/
def TurbulenceSeeds.new : TurbulenceSeeds :=
  { seed := 0
    distorters := fun i => (Fractal.new 6).with_seed (seedStream 0 i.val) }

/-- `Seedable for Turbulence`, method `with_seed` (turbulence.rs lines
108-126): the four distorters are rebuilt as `a.with_seed(seed)`,
`b.with_seed(seed)`, `c.with_seed(seed)`, `d.with_seed(seed)` — every one of
them receives the same argument — and the stored seed becomes the argument. -/
def TurbulenceSeeds.with_seed (t : TurbulenceSeeds) (seed : Nat) :
    TurbulenceSeeds :=
  { seed := seed
    distorters := fun i => (t.distorters i).with_seed seed }

/-- `Turbulence`, at the level of 2-dimensional evaluation (f64 as ℚ).  The
four `distorters` fields stand for the evaluation functions of the
`Transformed<FractalPerlin, UniformScale<f64>>` values; their defining Perlin
generator (`src/noise_fns/generators/perlin.rs`, declared in generators.rs)
is absent from the provided sources, so they are kept abstract — the theorem
proved about this structure holds for every value of these fields and assumes
nothing about them.  `frequency`, `roughness` and the seed do not occur in
`get` and are omitted. -/
structure Turbulence2 where
  source : ℚ × ℚ → ℚ
  power : ℚ
  distorters : Fin 4 → (ℚ × ℚ → ℚ)

/-- `Turbulence::with_power` (turbulence.rs lines 83-85). -/
def Turbulence2.with_power (t : Turbulence2) (power : ℚ) : Turbulence2 :=
  { t with power := power }

/-- `NoiseFn<[f64; 2]> for Turbulence`, method `get` (turbulence.rs lines
137-151): fixed fractional offsets are added to the input coordinates, the
first two distorters are sampled there, each sample is scaled by `power` and
added to the corresponding input coordinate, and the wrapped source is
evaluated at the displaced point. -/
def Turbulence2.get (t : Turbulence2) (point : ℚ × ℚ) : ℚ :=
  let x0 := point.1 + 12414 / 65536
  let y0 := point.2 + 65124 / 65536
  let x1 := point.1 + 26519 / 65536
  let y1 := point.2 + 18128 / 65536
  let x_distort := point.1 + t.distorters 0 (x0, y0) * t.power
  let y_distort := point.2 + t.distorters 1 (x1, y1) * t.power
  t.source (x_distort, y_distort)

/-! ### Clamp (src/src/noise_fns/modifiers/clamp.rs) -/

/-- Model of Rust's standard-library `f64::clamp` (external to this
repository), per its documented behaviour: it asserts `min <= max` — the call
panics when `min > max` (`none`) — and otherwise returns `self` moved into
the interval `[min, max]` (`if self < min { min } else if self > max { max }
else { self }`). -/
def rustClamp (x lo hi : ℚ) : Option ℚ :=
  if lo ≤ hi then some (if x < lo then lo else if x > hi then hi else x)
  else none

/-- `Clamp` (clamp.rs lines 5-11), source node as its evaluation function. -/
structure Clamp (α : Type) where
  source : α → ℚ
  bounds : ℚ × ℚ

/-- `Clamp::new` (clamp.rs lines 14-19): default bounds `(-1.0, 1.0)`. -/
def Clamp.new {α : Type} (source : α → ℚ) : Clamp α :=
  { source := source, bounds := (-1, 1) }

/-- `Clamp::with_bounds` (clamp.rs lines 35-40). -/
def Clamp.with_bounds {α : Type} (c : Clamp α) (lower_bound upper_bound : ℚ) :
    Clamp α :=
  { c with bounds := (lower_bound, upper_bound) }

/-- `NoiseFn for Clamp`, method `get` (clamp.rs lines 46-50):
`self.source.get(point).clamp(self.bounds.0, self.bounds.1)`. -/
def Clamp.get {α : Type} (c : Clamp α) (point : α) : Option ℚ :=
  rustClamp (c.source point) c.bounds.1 c.bounds.2

/-! ### Combiners (src/src/noise_fns/combiners.rs)

The `combiner!` macro is invoked five times (`Add`, `Multiply`, `Power`,
`Min`, `Max`).  Its body declares `struct $name<A, B>` but then writes both
impl blocks for the literal name `Add` rather than `$name` (combiners.rs
lines 14 and 27), so every invocation after the first produces a conflicting
`NoiseFn` impl (and duplicate inherent items) for `Add`, and
`Multiply`/`Power`/`Min`/`Max` receive no impl at all: the module does not
compile.  The definitions below follow the evident intended expansion — impl
blocks for `$name`, each with its own `$combine_fn` — for the three
combiners the claim is about. -/

/-- Intended expansion of `combiner! { pub Add(f64::add) }`. -/
structure Add (α : Type) where
  source1 : α → ℚ
  source2 : α → ℚ

/-- Intended `NoiseFn::get` for `Add`: `$combine_fn` is `f64::add`. -/
def Add.get {α : Type} (c : Add α) (point : α) : ℚ :=
  c.source1 point + c.source2 point

/-- Intended expansion of `combiner! { pub Min(f64::min) }`. -/
structure Min (α : Type) where
  source1 : α → ℚ
  source2 : α → ℚ

/-- Intended `NoiseFn::get` for `Min`: `$combine_fn` is `f64::min`. -/
def Min.get {α : Type} (c : Min α) (point : α) : ℚ :=
  min (c.source1 point) (c.source2 point)

/-- Intended expansion of `combiner! { pub Max(f64::max) }`. -/
structure Max (α : Type) where
  source1 : α → ℚ
  source2 : α → ℚ

/-- Intended `NoiseFn::get` for `Max`: `$combine_fn` is `f64::max`. -/
def Max.get {α : Type} (c : Max α) (point : α) : ℚ :=
  max (c.source1 point) (c.source2 point)

/-! ### Checkerboard (src/src/noise_fns/generators/checkerboard.rs) -/

/-- A model of `f64` that distinguishes the non-finite values, used where a
claim is about NaN / infinity handling. -/
inductive Fp where
  | finite (val : ℚ)
  | nan
  | posInf
  | negInf
deriving DecidableEq, Repr

/-- Model of `num_traits::ToPrimitive::to_u64` for `f64` (external crate),
per its documented behaviour: the conversion returns `None` whenever the
value cannot be represented as a `u64` — in particular for NaN, for both
infinities and for values below 0 or at/above 2^64 after truncation toward
zero — and the truncated value otherwise.  Only the `None` results for NaN
and the infinities are relied on by the theorems below. -/
def Fp.toU64 : Fp → Option Nat
  | .finite q =>
      if q ≤ -1 ∨ (2 : ℚ) ^ 64 ≤ q then none
      else some (max 0 q.floor).toNat
  | .nan => none
  | .posInf => none
  | .negInf => none

/-- `Checkerboard` (checkerboard.rs lines 14-17): the stored `size` field. -/
structure Checkerboard where
  size : Nat
deriving Repr, DecidableEq

/-- `Checkerboard::new` (checkerboard.rs lines 23-25): stores `1 << size`
(a `u64` shift). -/
def Checkerboard.new (size : Nat) : Checkerboard :=
  { size := (1 <<< size) % 2 ^ 64 }

/-- `NoiseFn for Checkerboard`, method `get` (checkerboard.rs lines 49-61):
every coordinate is converted with `a.to_u64().unwrap()` — the `unwrap`
panics when the conversion yields `None`, modelled by `Option.none`
propagating through `mapM` (the `fold` consumes the whole mapped iterator, so
every coordinate is converted) — then the results are folded with
`(a & size) ^ (b & size)` from 0, and the output is `-1.0` when the fold is
positive and `1.0` otherwise. -/
def Checkerboard.get (c : Checkerboard) (point : List Fp) : Option ℚ :=
  match point.mapM Fp.toU64 with
  | none => none
  | some coords =>
      let result := coords.foldl (fun a b => (a &&& c.size) ^^^ (b &&& c.size)) 0
      some (if result > 0 then -1 else 1)

/-! ### Select (src/src/noise_fns/selectors/select.rs) -/

/-- Modelled from the spec: the cubic s-curve `map_cubic` of
`math::s_curve::cubic::Cubic` — the `math` module is declared in lib.rs but
absent from the provided sources; the spec describes it as a cubic ease.
It is only reachable in the `falloff > 0` branches, on which none of the
theorems below depend. -/
def mapCubic (x : ℚ) : ℚ := x * x * (3 - 2 * x)

/-- Modelled from the spec: `interpolate::linear` of the absent `math`
module; the spec describes it as linear interpolation between two values by
an unclamped factor.  Only reachable in the `falloff > 0` branches. -/
def linearInterp (a b alpha : ℚ) : ℚ := a + alpha * (b - a)

/-- `Select` (select.rs lines 8-26), source nodes as evaluation functions. -/
structure Select (α : Type) where
  source1 : α → ℚ
  source2 : α → ℚ
  control : α → ℚ
  bounds : ℚ × ℚ
  falloff : ℚ

/-- `Select::new` (select.rs lines 29-37): default bounds `(0.0, 1.0)`,
default falloff `0.0`. -/
def Select.new {α : Type} (source1 source2 control : α → ℚ) : Select α :=
  { source1 := source1, source2 := source2, control := control
    bounds := (0, 1), falloff := 0 }

/-- `Select::with_bounds` (select.rs lines 39-44). -/
def Select.with_bounds {α : Type} (s : Select α)
    (lower_bound upper_bound : ℚ) : Select α :=
  { s with bounds := (lower_bound, upper_bound) }

/-- `Select::with_falloff` (select.rs lines 46-48). -/
def Select.with_falloff {α : Type} (s : Select α) (falloff : ℚ) : Select α :=
  { s with falloff := falloff }

/-- `NoiseFn for Select`, method `get` (select.rs lines 58-97), translated
branch for branch: the smoothing match only runs under `self.falloff > 0.0`;
otherwise `control_value < lower || control_value > upper` selects `source1`
and everything else — boundary values included — selects `source2`. -/
def Select.get {α : Type} (s : Select α) (point : α) : ℚ :=
  let control_value := s.control point
  let lower := s.bounds.1
  let upper := s.bounds.2
  if s.falloff > 0 then
    if control_value < lower - s.falloff then s.source1 point
    else if control_value < lower + s.falloff then
      let lower_curve := lower - s.falloff
      let upper_curve := lower + s.falloff
      let alpha := mapCubic ((control_value - lower_curve) / (upper_curve - lower_curve))
      linearInterp (s.source1 point) (s.source2 point) alpha
    else if control_value < upper - s.falloff then s.source2 point
    else if control_value < upper + s.falloff then
      let lower_curve := upper - s.falloff
      let upper_curve := upper + s.falloff
      let alpha := mapCubic ((control_value - lower_curve) / (upper_curve - lower_curve))
      linearInterp (s.source2 point) (s.source1 point) alpha
    else s.source1 point
  else if control_value < lower ∨ control_value > upper then s.source1 point
  else s.source2 point

/-- Concrete Select node used by the C7 witness: constant sources 3 and 5,
constant control 0, bounds (0, 1), falloff 0 — the control sits exactly on
the lower boundary. -/
def selectSample : Select Unit :=
  ((Select.new (fun _ => 3) (fun _ => 5) (fun _ => 0)).with_bounds 0 1).with_falloff 0

/-- Concrete Select node used by the C10 witness: constant sources 3 and 5,
constant control 2, bounds (0, 1), falloff -1. -/
def selectSampleNeg : Select Unit :=
  ((Select.new (fun _ => 3) (fun _ => 5) (fun _ => 2)).with_bounds 0 1).with_falloff (-1)

/-! ## Theorems -/

/-- Helper: a `mapM` over `Option` returns `none` as soon as one element
maps to `none`. -/
theorem mapM_toU64_eq_none_of_mem {l : List Fp} {x : Fp} (hx : x ∈ l)
    (hfx : Fp.toU64 x = none) : l.mapM Fp.toU64 = none := by
  induction l with
  | nil => cases hx
  | cons a as ih =>
      rw [List.mapM_cons]
      rcases List.mem_cons.mp hx with h | h
      · subst h
        rw [hfx]
        rfl
      · cases ha : Fp.toU64 a with
        | none => rfl
        | some b =>
            rw [ih h]
            rfl

/-- C1: the claim states that `HomogenousBlender::blend` returns the running
sum `v_0·p^0 + v_1·p^1 + …` with layer 0 contributing exactly once at full
amplitude — so `blend(0.5, [1.0])` would have to be `1.0`.  Evaluating the
code gives `1.5`: the loop starts from `result = layer_values[0]` and then
runs over the whole slice again, adding layer 0 a second time at weight `p`
and weighting layer `i` by `p^(i+1)`. -/
theorem C1_homogenous_blend_double_counts_layer0 :
    HomogenousBlender.blend (1 / 2) [1] = some (3 / 2) ∧ (3 / 2 : ℚ) ≠ 1 := by
  constructor
  · norm_num [HomogenousBlender.blend, homogenousBlendLoop]
  · norm_num

/-- C2 counterexample: the claim states that a Clamp node with `low > high`
is accepted at evaluation time and returns a value.  For bounds `(1, 0)`
(`low = 1 > 0 = high`) over a constant source, `Clamp::get` panics —
`f64::clamp` asserts `min <= max` — so evaluation produces no value. -/
theorem C2_counterexample_clamp_low_gt_high_panics :
    ((Clamp.new (fun _ : Unit => 1 / 2)).with_bounds 1 0).get () = none ∧
      (0 : ℚ) < 1 := by
  constructor
  · rfl
  · norm_num

/-- C2 amended: for every Clamp node whose bounds pair has `low > high` and
every point, `Clamp::get` fails at evaluation time (the underlying
`f64::clamp` panics on `min > max`); a degenerate range is an
evaluation-time failure, not an accepted inverted range. -/
theorem C2_clamp_degenerate_range_is_eval_failure {α : Type} (c : Clamp α)
    (point : α) (h : c.bounds.2 < c.bounds.1) : c.get point = none := by
  unfold Clamp.get rustClamp
  rw [if_neg (not_le.mpr h)]

/-- Witness for C2: a concrete Clamp node with bounds (3, 2). -/
theorem C2_clamp_degenerate_range_is_eval_failure_witness :
    (Clamp.mk (fun _ : Unit => 0) (3, 2)).bounds.2 <
        (Clamp.mk (fun _ : Unit => 0) (3, 2)).bounds.1 ∧
      (Clamp.mk (fun _ : Unit => 0) (3, 2)).get () = none :=
  ⟨show (2 : ℚ) < 3 by norm_num,
    C2_clamp_degenerate_range_is_eval_failure (Clamp.mk (fun _ : Unit => 0) (3, 2))
      () (show (2 : ℚ) < 3 by norm_num)⟩

/-- C3: the claim states that `with_seed(s)` gives each of the four
displacement fractals its own seed drawn from a seeded sub-sequence of `s`,
never the same seed for all four.  The code passes the same `s` to all four
distorters, so any two distorters with equal layer counts end up with
identical layer-seed lists — the four displacement fields are fully
correlated, not decorrelated. -/
theorem C3_with_seed_reuses_one_seed_for_all_distorters (t : TurbulenceSeeds)
    (s : Nat) (i j : Fin 4)
    (hlen : (t.distorters i).layers.length = (t.distorters j).layers.length) :
    ((t.with_seed s).distorters i).layers =
      ((t.with_seed s).distorters j).layers := by
  simp [TurbulenceSeeds.with_seed, Fractal.with_seed, hlen]

/-- Witness for C3: after `Turbulence::new().with_seed(7)`, distorters 0 and
1 carry identical layer-seed lists. -/
theorem C3_with_seed_reuses_one_seed_for_all_distorters_witness :
    (TurbulenceSeeds.new.distorters 0).layers.length =
        (TurbulenceSeeds.new.distorters 1).layers.length ∧
      ((TurbulenceSeeds.new.with_seed 7).distorters 0).layers =
        ((TurbulenceSeeds.new.with_seed 7).distorters 1).layers :=
  ⟨by decide,
    C3_with_seed_reuses_one_seed_for_all_distorters TurbulenceSeeds.new 7 0 1
      (by decide)⟩

/-- C4: growing a fractal with `with_layers(j)` (for `j` larger than the
current layer count) succeeds, keeps the stored seed, leaves the seeds of
the retained layers `0..k` unchanged, and gives the appended layer at
absolute index `i` the seed `seedStream fr.seed i` — a function of the
fractal's own stored seed and that index only, independent of the layer
count at the time of resizing. -/
theorem C4_with_layers_keeps_retained_seeds_and_extends_by_index
    (fr : Fractal) (j : Nat) (hpos : 0 < fr.layers.length)
    (hgrow : fr.layers.length < j) :
    ∃ fr2, fr.with_layers j = some fr2 ∧
      fr2.seed = fr.seed ∧
      fr2.layers.length = j ∧
      fr2.layers.take fr.layers.length = fr.layers ∧
      ∀ i : Nat, fr.layers.length ≤ i → i < j →
        fr2.layers[i]? = some (seedStream fr.seed i) := by
  have hj0 : j ≠ 0 := by omega
  have hne : fr.layers.length ≠ j := Nat.ne_of_lt hgrow
  have hnlt : ¬j < fr.layers.length := by omega
  have hemp : ¬fr.layers.isEmpty = true := by
    rw [List.isEmpty_iff]
    exact List.length_pos.mp hpos
  unfold Fractal.with_layers
  rw [if_neg hj0, if_neg hne, if_neg hnlt, if_neg hemp]
  refine ⟨_, rfl, rfl, ?_, ?_, ?_⟩
  · simp [List.length_append, List.length_range']
    omega
  · exact List.take_left _ _
  · intro i hle hlt
    rw [List.getElem?_append_right hle, List.getElem?_map,
      List.getElem?_range']
    · simp [Nat.add_sub_cancel' hle]
    · omega

/-- Witness for C4: a two-layer fractal grown to four layers. -/
theorem C4_with_layers_keeps_retained_seeds_witness :
    0 < (Fractal.new 2).layers.length ∧ (Fractal.new 2).layers.length < 4 ∧
      ∃ fr2, (Fractal.new 2).with_layers 4 = some fr2 ∧
        fr2.seed = (Fractal.new 2).seed ∧
        fr2.layers.length = 4 ∧
        fr2.layers.take (Fractal.new 2).layers.length = (Fractal.new 2).layers ∧
        ∀ i : Nat, (Fractal.new 2).layers.length ≤ i → i < 4 →
          fr2.layers[i]? = some (seedStream (Fractal.new 2).seed i) :=
  ⟨by decide, by decide,
    C4_with_layers_keeps_retained_seeds_and_extends_by_index (Fractal.new 2) 4
      (by decide) (by decide)⟩

/-- C5: the intended expansions of the combiner macro satisfy the claimed
identities — `Add` adds, `Min` takes the pointwise minimum and `Max` the
pointwise maximum of the two children evaluated at the identical point.  (As
written, the macro body implements the literal name `Add` in place of
`$name`, so the five invocations generate conflicting impls and the module
does not compile; see the comment on the definitions.) -/
theorem C5_combiner_identities {α : Type} (A B : α → ℚ) (p : α) :
    (Add.mk A B).get p = A p + B p ∧
      (Min.mk A B).get p = min (A p) (B p) ∧
      (Max.mk A B).get p = max (A p) (B p) :=
  ⟨rfl, rfl, rfl⟩

/-- C6: the claim states that `seed()` after `with_seed(s)` returns `s`.
Evaluating the code: `Fractal::with_seed` writes `seed: this.seed` into the
new value, so `FractalPerlin::default().with_seed(1).seed()` returns the old
stored seed `0xD0786B3E`, not `1`. -/
theorem C6_fractal_with_seed_keeps_stale_stored_seed :
    ((Fractal.new 6).with_seed 1).seedOf = 0xD0786B3E ∧
      (0xD0786B3E : Nat) ≠ 1 := by
  constructor
  · rfl
  · decide

/-- C7: with `falloff == 0`, `Select::get` returns `source1`'s value whenever
the control value is outside `[low, high]` (strictly below `low` or strictly
above `high`) and `source2`'s value otherwise — the boundary values `low`
and `high` themselves included on the `source2` side. -/
theorem C7_select_zero_falloff_hard_switch {α : Type} (s : Select α)
    (point : α) (hf : s.falloff = 0) :
    (s.control point < s.bounds.1 ∨ s.control point > s.bounds.2 →
        s.get point = s.source1 point) ∧
      (s.bounds.1 ≤ s.control point → s.control point ≤ s.bounds.2 →
        s.get point = s.source2 point) := by
  unfold Select.get
  rw [hf]
  rw [if_neg (lt_irrefl (0 : ℚ))]
  constructor
  · intro h
    rw [if_pos h]
  · intro h1 h2
    rw [if_neg]
    push_neg
    exact ⟨h1, h2⟩

/-- Witness for C7: in `selectSample` the control value 0 sits exactly on the
lower bound, and the output is `source2`'s value 5 — the boundary is
inclusive of `source2`. -/
theorem C7_select_zero_falloff_hard_switch_witness :
    selectSample.falloff = 0 ∧ selectSample.get () = 5 := by
  have h := (C7_select_zero_falloff_hard_switch selectSample () rfl).2
    (by decide) (by decide)
  exact ⟨rfl, h⟩

/-- C8: `Turbulence(source).with_power(0.0).get(point) == source.get(point)`:
with power zero the displacement contributions vanish (each sampled
displacement is multiplied by the power 0) and the wrapped source is
evaluated at the original point, whatever values the four displacement
fields take. -/
theorem C8_turbulence_zero_power_identity (t : Turbulence2) (point : ℚ × ℚ) :
    (t.with_power 0).get point = t.source point := by
  simp [Turbulence2.get, Turbulence2.with_power]

/-- C9 counterexample: the claim states that evaluation with a NaN
coordinate never fails with a guarded error or panic.  `Checkerboard::get`
converts every coordinate with `to_u64().unwrap()`; at the point
`[NaN, 0.0]` the conversion of NaN yields `None` and the `unwrap` panics, so
evaluation produces no scalar. -/
theorem C9_counterexample_checkerboard_nan_panics :
    (Checkerboard.new 0).get [Fp.nan, Fp.finite 0] = none := by
  rfl

/-- C9 amended: NaN/infinite coordinates are not validated and propagate
through the arithmetic nodes, but `Checkerboard::get` panics — rather than
returning a scalar — at every point containing a NaN or infinite coordinate,
because `to_u64()` yields `None` there and is unwrapped. -/
theorem C9_checkerboard_panics_on_nonfinite_coordinate (c : Checkerboard)
    (point : List Fp)
    (h : Fp.nan ∈ point ∨ Fp.posInf ∈ point ∨ Fp.negInf ∈ point) :
    c.get point = none := by
  unfold Checkerboard.get
  rcases h with h | h | h
  · rw [mapM_toU64_eq_none_of_mem h rfl]
  · rw [mapM_toU64_eq_none_of_mem h rfl]
  · rw [mapM_toU64_eq_none_of_mem h rfl]

/-- Witness for C9: a concrete Checkerboard evaluated at a point whose second
coordinate is positive infinity. -/
theorem C9_checkerboard_panics_on_nonfinite_witness :
    (Fp.nan ∈ [Fp.finite 1, Fp.posInf] ∨ Fp.posInf ∈ [Fp.finite 1, Fp.posInf] ∨
        Fp.negInf ∈ [Fp.finite 1, Fp.posInf]) ∧
      (Checkerboard.new 1).get [Fp.finite 1, Fp.posInf] = none :=
  ⟨by decide,
    C9_checkerboard_panics_on_nonfinite_coordinate (Checkerboard.new 1)
      [Fp.finite 1, Fp.posInf] (by decide)⟩

/-- C10: with any strictly negative `falloff`, `Select::get` takes the same
branch as `falloff == 0` (the smoothing match is guarded by
`falloff > 0.0`): it returns `source1`'s value iff the control value is
strictly below the lower bound or strictly above the upper bound, and
`source2`'s value otherwise. -/
theorem C10_select_negative_falloff_hard_switch {α : Type} (s : Select α)
    (point : α) (hf : s.falloff < 0) :
    s.get point =
      if s.control point < s.bounds.1 ∨ s.control point > s.bounds.2 then
        s.source1 point
      else s.source2 point := by
  unfold Select.get
  rw [if_neg (lt_asymm hf)]

/-- Witness for C10: `selectSampleNeg` has falloff -1 and control value 2
above the upper bound 1, so the output is `source1`'s value 3. -/
theorem C10_select_negative_falloff_hard_switch_witness :
    selectSampleNeg.falloff < 0 ∧ selectSampleNeg.get () = 3 := by
  have h := C10_select_negative_falloff_hard_switch selectSampleNeg ()
    (by norm_num [selectSampleNeg, Select.new, Select.with_bounds, Select.with_falloff])
  constructor
  · norm_num [selectSampleNeg, Select.new, Select.with_bounds, Select.with_falloff]
  · rw [h]
    rw [if_pos]
    · rfl
    · right
      norm_num [selectSampleNeg, Select.new, Select.with_bounds, Select.with_falloff]

end NoiseRs
